import Mathlib

/-!
# Walk demand elements: XML serialisation and path computation

A shallow embedding of `src/netedit/elements/demand/GNEWalk.cpp`:

* `GNEWalk.writeDemandElement` is modelled by state passing over an
  `OutputDevice`, which records the calls made on the device
  (`openTag`, `writeAttr`, `closeTag`) in order;
* `GNEWalk.computePathElement` is modelled by state passing over the list of
  requests sent to the path manager, followed by the geometry update.

Collaborators that live outside the file (attribute enabling of the plan mixin,
the person's list of child plans, the lane lookup of an edge) are fields of
`Env`.  `std::vector::at` out of range, `ProcessError` and `front()`/`back()`
on an empty vector are the three ways a call can fail (`Fault`).
-/

namespace Sumo

/-! ## Data model -/

/-- Element tags (`SumoXMLTag`).  The enumeration is declared in the XML
definitions header; these are the enumerators that `GNEWalk.cpp` names, with
the additional tags a parent additional of a walk can carry. -/
inductive SumoXMLTag
  | SUMO_TAG_WALK
  | SUMO_TAG_BUS_STOP
  | SUMO_TAG_TRAIN_STOP
  | SUMO_TAG_TAZ
  | SUMO_TAG_PERSON
  | SUMO_TAG_ROUTE
  | GNE_TAG_WALK_EDGE
  | GNE_TAG_WALK_BUSSTOP
  | GNE_TAG_WALK_TRAINSTOP
  | GNE_TAG_WALK_EDGES
  | GNE_TAG_WALK_ROUTE
  | GNE_TAG_WALK_JUNCTIONS
  | GNE_TAG_WALK_TAZS
  | GNE_TAG_RIDE_EDGE
  | GNE_TAG_RIDE_BUSSTOP
  | GNE_TAG_RIDE_TRAINSTOP
  deriving DecidableEq

/-- Attribute keys (`SumoXMLAttr`) named by `GNEWalk.cpp`. -/
inductive SumoXMLAttr
  | SUMO_ATTR_ROUTE
  | SUMO_ATTR_EDGES
  | SUMO_ATTR_FROM
  | SUMO_ATTR_TO
  | SUMO_ATTR_FROM_JUNCTION
  | SUMO_ATTR_TO_JUNCTION
  | SUMO_ATTR_FROM_TAZ
  | SUMO_ATTR_TO_TAZ
  | SUMO_ATTR_BUS_STOP
  | SUMO_ATTR_TRAIN_STOP
  | SUMO_ATTR_ARRIVALPOS
  deriving DecidableEq

/-- Vehicle classes (`SUMOVehicleClass`); only `SVC_PEDESTRIAN` is named by
`GNEWalk.cpp`, the others stand for the class a person parent may report. -/
inductive SUMOVehicleClass
  | SVC_IGNORING
  | SVC_PASSENGER
  | SVC_BUS
  | SVC_PEDESTRIAN
  deriving DecidableEq

/-- A C++ `double`, as far as `GNEWalk.cpp` looks at one: a finite value
`± mantissa * 2 ^ exponent`, an infinity, or a NaN. -/
inductive Double
  | finite (negative : Bool) (mantissa : Nat) (exponent : Int)
  | inf (negative : Bool)
  | nan
  deriving DecidableEq

/-- The comparison `d > 0` on doubles: false for NaN, zeros and negatives. -/
def Double.isPositive : Double → Bool
  | .finite negative mantissa _ => !negative && decide (0 < mantissa)
  | .inf negative => !negative
  | .nan => false

/-- Ways a member function of the walk fails to return. -/
inductive Fault
  | outOfRange
  | processError
  | undefinedBehaviour
  deriving DecidableEq

/-- A junction, seen through `getID`. -/
structure GNEJunction where
  id : String
  deriving DecidableEq

/-- An edge, seen through `getID` and `getToJunction`. -/
structure GNEEdge where
  id : String
  toJunction : GNEJunction
  deriving DecidableEq

/-- A lane, seen through `getID` and `getParentEdge`. -/
structure GNELane where
  id : String
  parentEdge : GNEEdge
  deriving DecidableEq

/-- An additional (bus stop, train stop, TAZ), seen through `getID`,
`getTagProperty().getTag()` and `getParentLanes`. -/
structure GNEAdditional where
  id : String
  tag : SumoXMLTag
  parentLanes : List GNELane
  deriving DecidableEq

/-- Another demand element (the person parent, a route parent, or a sibling
plan of the same person), seen through the accessors `GNEWalk.cpp` calls on
it.  `lastPathLane` is the outcome of the virtual `getLastPathLane()`: the
lane it returns, or the way it fails to return one. -/
structure GNEDemandElement where
  id : String
  vClass : SUMOVehicleClass
  parentEdges : List GNEEdge
  parentJunctions : List GNEJunction
  lastPathLane : Except Fault GNELane

/-- The walk: its tag (`myTagProperty.getTag()`), its parents in the
hierarchy, and the arrival position kept by the plan mixin. -/
structure GNEWalk where
  tag : SumoXMLTag
  parentJunctions : List GNEJunction
  parentEdges : List GNEEdge
  parentAdditionals : List GNEAdditional
  parentDemandElements : List GNEDemandElement
  myArrivalPosition : Double

/-- Collaborators of `GNEWalk.cpp` defined elsewhere in the editor. -/
structure Env where
  /-- `GNEDemandElementPlan::isPlanAttributeEnabled` of the walk. -/
  isPlanAttributeEnabled : GNEWalk → SumoXMLAttr → Bool
  /-- `getPreviousChildDemandElement` of a person, for this walk. -/
  getPreviousChildDemandElement : GNEDemandElement → GNEWalk → Option GNEDemandElement
  /-- `GNEEdge::getLaneByAllowedVClass`. -/
  getLaneByAllowedVClass : GNEEdge → SUMOVehicleClass → GNELane
  /-- `GNEEdge::getLaneByDisallowedVClass`. -/
  getLaneByDisallowedVClass : GNEEdge → SUMOVehicleClass → GNELane

/-- Checked access `std::vector::at`. -/
def vectorAt {α : Type} (v : List α) (i : Nat) : Except Fault α :=
  match v.get? i with
  | some x => .ok x
  | none => .error .outOfRange

/-- Unchecked `std::vector::front`. -/
def front {α : Type} (v : List α) : Except Fault α :=
  match v.head? with
  | some x => .ok x
  | none => .error .undefinedBehaviour

/-- Unchecked `std::vector::back`. -/
def back {α : Type} (v : List α) : Except Fault α :=
  match v.getLast? with
  | some x => .ok x
  | none => .error .undefinedBehaviour

/-! ## Constructors -/

/-- Constructor `GNEWalk(net, personParent, fromEdge, toEdge, arrivalPosition)`. -/
def GNEWalk.fromToEdge (personParent : GNEDemandElement) (fromEdge toEdge : GNEEdge)
    (arrivalPosition : Double) : GNEWalk :=
  ⟨.GNE_TAG_WALK_EDGE, [], [fromEdge, toEdge], [], [personParent], arrivalPosition⟩

/-- Constructor `GNEWalk(isTrain, net, personParent, fromEdge, toAdditional, arrivalPosition)`. -/
def GNEWalk.toStop (isTrain : Bool) (personParent : GNEDemandElement) (fromEdge : GNEEdge)
    (toAdditional : GNEAdditional) (arrivalPosition : Double) : GNEWalk :=
  ⟨if isTrain then .GNE_TAG_WALK_TRAINSTOP else .GNE_TAG_WALK_BUSSTOP,
    [], [fromEdge], [toAdditional], [personParent], arrivalPosition⟩

/-- Constructor `GNEWalk(net, personParent, edges, arrivalPosition)`. -/
def GNEWalk.overEdges (personParent : GNEDemandElement) (edges : List GNEEdge)
    (arrivalPosition : Double) : GNEWalk :=
  ⟨.GNE_TAG_WALK_EDGES, [], edges, [], [personParent], arrivalPosition⟩

/-- Constructor `GNEWalk(net, personParent, route, arrivalPosition)`. -/
def GNEWalk.overRoute (personParent route : GNEDemandElement)
    (arrivalPosition : Double) : GNEWalk :=
  ⟨.GNE_TAG_WALK_ROUTE, [], [], [], [personParent, route], arrivalPosition⟩

/-- Constructor `GNEWalk(net, personParent, fromJunction, toJunction, arrivalPosition)`. -/
def GNEWalk.fromToJunction (personParent : GNEDemandElement) (fromJunction toJunction : GNEJunction)
    (arrivalPosition : Double) : GNEWalk :=
  ⟨.GNE_TAG_WALK_JUNCTIONS, [fromJunction, toJunction], [], [], [personParent], arrivalPosition⟩

/-- Constructor `GNEWalk(net, personParent, fromTAZ, toTAZ, arrivalPosition)`. -/
def GNEWalk.fromToTAZ (personParent : GNEDemandElement) (fromTAZ toTAZ : GNEAdditional)
    (arrivalPosition : Double) : GNEWalk :=
  ⟨.GNE_TAG_WALK_TAZS, [], [], [fromTAZ, toTAZ], [personParent], arrivalPosition⟩

/-! ## Output device -/

/-- Value handed to `OutputDevice::writeAttr`: an ID, the result of
`parseIDs` on elements with the listed IDs, or a double. -/
inductive AttrValue
  | str (s : String)
  | parsedIDs (ids : List String)
  | dbl (d : Double)
  deriving DecidableEq

/-- One call on the output device. -/
inductive DeviceOp
  | openTag (tag : SumoXMLTag)
  | writeAttr (key : SumoXMLAttr) (value : AttrValue)
  | closeTag
  deriving DecidableEq

/-- The output device: the calls made on it so far, oldest first. -/
abbrev OutputDevice := List DeviceOp

/-- Call `device.openTag(tag)`. -/
def OutputDevice.openTag (device : OutputDevice) (tag : SumoXMLTag) : OutputDevice :=
  device ++ [DeviceOp.openTag tag]

/-- Call `device.writeAttr(key, value)`. -/
def OutputDevice.writeAttr (device : OutputDevice) (key : SumoXMLAttr) (value : AttrValue) :
    OutputDevice :=
  device ++ [DeviceOp.writeAttr key value]

/-- Call `device.closeTag()`. -/
def OutputDevice.closeTag (device : OutputDevice) : OutputDevice :=
  device ++ [DeviceOp.closeTag]

/-! ## Member functions of the walk -/

/-- `GNEWalk::isAttributeEnabled`: forwarded to the plan mixin. -/
def GNEWalk.isAttributeEnabled (env : Env) (w : GNEWalk) (key : SumoXMLAttr) : Bool :=
  env.isPlanAttributeEnabled w key

/-- `GNEWalk::getVClass`: the class of the first parent demand element. -/
def GNEWalk.getVClass (w : GNEWalk) : Except Fault SUMOVehicleClass := do
  let parent ← front w.parentDemandElements
  pure parent.vClass

/-- `GNEWalk::writeDemandElement`. -/
def GNEWalk.writeDemandElement (env : Env) (w : GNEWalk) (device : OutputDevice) :
    Except Fault OutputDevice := do
  -- open tag
  let device := device.openTag .SUMO_TAG_WALK
  -- write attributes depending of walk type
  let device ←
    if w.tag = .GNE_TAG_WALK_ROUTE then do
      let route ← vectorAt w.parentDemandElements 1
      pure (device.writeAttr .SUMO_ATTR_ROUTE (.str route.id))
    else if w.tag = .GNE_TAG_WALK_EDGES then
      pure (device.writeAttr .SUMO_ATTR_EDGES (.parsedIDs (w.parentEdges.map GNEEdge.id)))
    else do
      -- check if from attribute is enabled
      let device ←
        if w.isAttributeEnabled env .SUMO_ATTR_FROM then
          -- check if write edge or junction
          if 0 < w.parentEdges.length then do
            let e ← front w.parentEdges
            pure (device.writeAttr .SUMO_ATTR_FROM (.str e.id))
          else if 0 < w.parentJunctions.length then do
            let j ← front w.parentJunctions
            pure (device.writeAttr .SUMO_ATTR_FROM_JUNCTION (.str j.id))
          else if 0 < w.parentJunctions.length then do
            let a ← front w.parentAdditionals
            pure (device.writeAttr .SUMO_ATTR_FROM_TAZ (.str a.id))
          else
            pure device
        else
          pure device
      -- write to depending if personplan ends in a busStop, edge or junction
      if 0 < w.parentAdditionals.length then do
        let toAdditional ← back w.parentAdditionals
        if toAdditional.tag = .SUMO_TAG_BUS_STOP then
          pure (device.writeAttr .SUMO_ATTR_BUS_STOP (.str toAdditional.id))
        else if toAdditional.tag = .SUMO_TAG_TRAIN_STOP then
          pure (device.writeAttr .SUMO_ATTR_TRAIN_STOP (.str toAdditional.id))
        else
          pure (device.writeAttr .SUMO_ATTR_TO_TAZ (.str toAdditional.id))
      else if 0 < w.parentEdges.length then do
        let e ← back w.parentEdges
        pure (device.writeAttr .SUMO_ATTR_TO (.str e.id))
      else if 0 < w.parentJunctions.length then do
        let j ← back w.parentJunctions
        pure (device.writeAttr .SUMO_ATTR_TO_JUNCTION (.str j.id))
      else
        pure device
  -- avoid write arrival positions in walk to busStop
  let device :=
    if w.tag ≠ .GNE_TAG_RIDE_BUSSTOP ∧ w.tag ≠ .GNE_TAG_RIDE_TRAINSTOP ∧
        w.myArrivalPosition.isPositive = true then
      device.writeAttr .SUMO_ATTR_ARRIVALPOS (.dbl w.myArrivalPosition)
    else
      device
  -- close tag
  pure device.closeTag

/-- `GNEWalk::getFirstPathLane`. -/
def GNEWalk.getFirstPathLane (env : Env) (w : GNEWalk) : Except Fault GNELane :=
  -- check if this walk is over a route
  if w.tag = .GNE_TAG_WALK_ROUTE then do
    let route ← vectorAt w.parentDemandElements 1
    let e ← front route.parentEdges
    pure (env.getLaneByAllowedVClass e .SVC_PEDESTRIAN)
  else if 0 < w.parentJunctions.length then
    .error .processError
  else do
    let e ← front w.parentEdges
    pure (env.getLaneByAllowedVClass e .SVC_PEDESTRIAN)

/-- `GNEWalk::getLastPathLane`. -/
def GNEWalk.getLastPathLane (env : Env) (w : GNEWalk) : Except Fault GNELane :=
  -- check if this walk is over a route
  if w.tag = .GNE_TAG_WALK_ROUTE then do
    let route ← vectorAt w.parentDemandElements 1
    let e ← back route.parentEdges
    pure (env.getLaneByAllowedVClass e .SVC_PEDESTRIAN)
  else if 0 < w.parentAdditionals.length then do
    let a ← front w.parentAdditionals
    front a.parentLanes
  else if 0 < w.parentJunctions.length then
    .error .processError
  else do
    let e ← back w.parentEdges
    pure (env.getLaneByDisallowedVClass e .SVC_PEDESTRIAN)

/-- The walk as a later plan of the same person sees it when it is that plan's
previous plan: its parent edges and junctions, and `GNEWalk::getLastPathLane`
as its `getLastPathLane()`. -/
def GNEWalk.asPreviousPlan (env : Env) (w : GNEWalk) (id : String) (vClass : SUMOVehicleClass) :
    GNEDemandElement :=
  ⟨id, vClass, w.parentEdges, w.parentJunctions, w.getLastPathLane env⟩

/-- What `computePathElement` asks of its collaborators: the three
path-manager requests (each for this walk, with a vehicle class and the
elements to connect) and the geometry update. -/
inductive PathEffect
  | calculatePathJunctions (vClass : SUMOVehicleClass) (junctions : List GNEJunction)
  | calculateConsecutivePathEdges (vClass : SUMOVehicleClass) (edges : List GNEEdge)
  | calculatePathLanes (vClass : SUMOVehicleClass) (lanes : List GNELane)
  | updateGeometry
  deriving DecidableEq

/-- `GNEWalk::computePathElement`, over the log of effects issued so far. -/
def GNEWalk.computePathElement (env : Env) (w : GNEWalk) (log : List PathEffect) :
    Except Fault (List PathEffect) := do
  -- calculate path depending of parents
  let log ←
    if 0 < w.parentJunctions.length then do
      -- get previous personTrip
      let person ← vectorAt w.parentDemandElements 0
      let previousParent := env.getPreviousChildDemandElement person w
      -- calculate path
      match previousParent with
      | none => do
        let vClass ← w.getVClass
        pure (log ++ [PathEffect.calculatePathJunctions vClass w.parentJunctions])
      | some previous =>
        if 0 < previous.parentJunctions.length then do
          let vClass ← w.getVClass
          let first ← front previous.parentJunctions
          let last ← back w.parentJunctions
          pure (log ++ [PathEffect.calculatePathJunctions vClass [first, last]])
        else do
          let vClass ← w.getVClass
          let lane ← previous.lastPathLane
          let last ← back w.parentJunctions
          pure (log ++ [PathEffect.calculatePathJunctions vClass [lane.parentEdge.toJunction, last]])
    else
      -- update lanes depending of walk tag
      if w.tag = .GNE_TAG_WALK_EDGES then do
        -- calculate consecutive path using parent edges
        let vClass ← w.getVClass
        pure (log ++ [PathEffect.calculateConsecutivePathEdges vClass w.parentEdges])
      else if w.tag = .GNE_TAG_WALK_ROUTE then do
        -- calculate consecutive path using route edges
        let vClass ← w.getVClass
        let route ← back w.parentDemandElements
        pure (log ++ [PathEffect.calculateConsecutivePathEdges vClass route.parentEdges])
      else if 0 < w.parentEdges.length then do
        -- get first and last person plane
        let firstLane ← w.getFirstPathLane env
        let lastLane ← w.getLastPathLane env
        -- calculate path
        let vClass ← w.getVClass
        pure (log ++ [PathEffect.calculatePathLanes vClass [firstLane, lastLane]])
      else
        pure log
  -- update geometry
  pure (log ++ [PathEffect.updateGeometry])

/-! ## Concrete scenario used to evaluate the functions -/

/-- Junctions of the scenario. -/
def jA : GNEJunction := ⟨"A"⟩
/-- Second junction. -/
def jB : GNEJunction := ⟨"B"⟩
/-- Third junction. -/
def jC : GNEJunction := ⟨"C"⟩

/-- Edge from A to B. -/
def eAB : GNEEdge := ⟨"AB", jB⟩
/-- Edge from B to C. -/
def eBC : GNEEdge := ⟨"BC", jC⟩

/-- Pedestrian lane of edge AB. -/
def laneAB : GNELane := ⟨"AB_0", eAB⟩

/-- A bus stop on lane AB_0. -/
def busStop0 : GNEAdditional := ⟨"bs_0", .SUMO_TAG_BUS_STOP, [laneAB]⟩
/-- Origin TAZ. -/
def taz0 : GNEAdditional := ⟨"taz_0", .SUMO_TAG_TAZ, []⟩
/-- Destination TAZ. -/
def taz1 : GNEAdditional := ⟨"taz_1", .SUMO_TAG_TAZ, []⟩

/-- The person owning the walks. -/
def person0 : GNEDemandElement := ⟨"p_0", .SVC_PEDESTRIAN, [], [], .error .processError⟩

/-- The double 1.0. -/
def one : Double := .finite false 1 0
/-- The double -1.0. -/
def minusOne : Double := .finite true 1 0

/-- An environment in which every attribute is enabled and the walk is the
first plan of its person. -/
def env0 : Env :=
  ⟨fun _ _ => true, fun _ _ => none, fun e _ => ⟨e.id ++ "_0", e⟩, fun e _ => ⟨e.id ++ "_1", e⟩⟩

/-- A train stop on lane AB_0. -/
def trainStop0 : GNEAdditional := ⟨"ts_0", .SUMO_TAG_TRAIN_STOP, [laneAB]⟩

/-- Fourth junction. -/
def jD : GNEJunction := ⟨"D"⟩

/-- Edge from A to D. -/
def eAD : GNEEdge := ⟨"AD", jD⟩

/-- An earlier plan of the person, the walk from junction B to junction A. -/
def previousJunctionPlan : GNEDemandElement :=
  (GNEWalk.fromToJunction person0 jB jA minusOne).asPreviousPlan env0 "walk_0" .SVC_PEDESTRIAN

/-- An earlier plan of the person, the walk from edge AB to edge AD. -/
def previousEdgePlan : GNEDemandElement :=
  (GNEWalk.fromToEdge person0 eAB eAD minusOne).asPreviousPlan env0 "walk_0" .SVC_PEDESTRIAN

/-- The environment `env0` with the walk preceded by `previousJunctionPlan`. -/
def env1 : Env :=
  ⟨fun _ _ => true, fun _ _ => some previousJunctionPlan, fun e _ => ⟨e.id ++ "_0", e⟩,
    fun e _ => ⟨e.id ++ "_1", e⟩⟩

/-- The environment `env0` with the walk preceded by `previousEdgePlan`. -/
def env2 : Env :=
  ⟨fun _ _ => true, fun _ _ => some previousEdgePlan, fun e _ => ⟨e.id ++ "_0", e⟩,
    fun e _ => ⟨e.id ++ "_1", e⟩⟩

/-- Walk of `person0` from `taz0` to `taz1`. -/
def walkTAZ0 : GNEWalk := GNEWalk.fromToTAZ person0 taz0 taz1 minusOne

/-- An earlier plan of the person, the walk from `taz0` to `taz1`. -/
def previousTAZPlan : GNEDemandElement :=
  walkTAZ0.asPreviousPlan env0 "walk_0" .SVC_PEDESTRIAN

/-- The environment `env0` with the walk preceded by `previousTAZPlan`. -/
def env3 : Env :=
  ⟨fun _ _ => true, fun _ _ => some previousTAZPlan, fun e _ => ⟨e.id ++ "_0", e⟩,
    fun e _ => ⟨e.id ++ "_1", e⟩⟩

/-- Walk of `person0` from edge AB to edge BC, arriving at position 1.0. -/
def walkEdge0 : GNEWalk := GNEWalk.fromToEdge person0 eAB eBC one

/-- Walk of `person0` from edge AB to the bus stop, arriving at position 1.0. -/
def walkBusStop0 : GNEWalk := GNEWalk.toStop false person0 eAB busStop0 one

/-- Walk of `person0` from edge AB to the train stop, arriving at position 1.0. -/
def walkTrainStop0 : GNEWalk := GNEWalk.toStop true person0 eAB trainStop0 one

/-- Walk of `person0` from junction A to junction C. -/
def walkJunctions0 : GNEWalk := GNEWalk.fromToJunction person0 jA jC minusOne

/-! ## Vocabulary of the statements -/

/-- The device call writes one of the attributes that name the destination of
a walk: `to`, `toJunction`, `toTaz`, `busStop` or `trainStop`. -/
def isDestinationAttr : DeviceOp → Bool
  | .writeAttr key _ =>
    decide (key ∈ [SumoXMLAttr.SUMO_ATTR_TO, .SUMO_ATTR_TO_JUNCTION, .SUMO_ATTR_TO_TAZ,
      .SUMO_ATTR_BUS_STOP, .SUMO_ATTR_TRAIN_STOP])
  | _ => false

/-! ## Auxiliary facts about vectors -/

/-- A vector with a last element is not empty. -/
theorem length_pos_of_getLast? {α : Type} {v : List α} {x : α} (h : v.getLast? = some x) :
    0 < v.length := by
  cases v with
  | nil => simp at h
  | cons a as => simp

/-- On a non-empty vector `front` returns. -/
theorem front_of_length_pos {α : Type} {v : List α} (h : 0 < v.length) :
    ∃ x, front v = .ok x := by
  cases v with
  | nil => simp at h
  | cons a as => exact ⟨a, rfl⟩

/-! ## Serialisation -/

/-- C1: a walk with tag `GNE_TAG_WALK_EDGE`, parent edges `[fromEdge, toEdge]`, no parent
junctions and no parent additionals, whose `from` attribute is enabled, is written as one
`walk` element: `openTag(SUMO_TAG_WALK)`, `from` = ID of the first edge, `to` = ID of the
last edge, the arrival position when it is positive, then `closeTag`; none of `route`,
`edges`, `fromJunction`, `toJunction`, `fromTaz`, `toTaz`, `busStop`, `trainStop` is written. -/
theorem C1_walk_edge (env : Env) (w : GNEWalk) (device : OutputDevice) (fromEdge toEdge : GNEEdge)
    (htag : w.tag = .GNE_TAG_WALK_EDGE)
    (hedges : w.parentEdges = [fromEdge, toEdge])
    (hjunctions : w.parentJunctions = [])
    (hadditionals : w.parentAdditionals = [])
    (hfrom : w.isAttributeEnabled env .SUMO_ATTR_FROM = true) :
    ∃ ops : List DeviceOp,
      w.writeDemandElement env device = .ok (device ++ ops) ∧
      ops = [DeviceOp.openTag .SUMO_TAG_WALK,
             DeviceOp.writeAttr .SUMO_ATTR_FROM (.str fromEdge.id),
             DeviceOp.writeAttr .SUMO_ATTR_TO (.str toEdge.id)]
            ++ (if w.myArrivalPosition.isPositive = true
                then [DeviceOp.writeAttr .SUMO_ATTR_ARRIVALPOS (.dbl w.myArrivalPosition)] else [])
            ++ [DeviceOp.closeTag] ∧
      ∀ key ∈ [SumoXMLAttr.SUMO_ATTR_ROUTE, .SUMO_ATTR_EDGES, .SUMO_ATTR_FROM_JUNCTION,
               .SUMO_ATTR_TO_JUNCTION, .SUMO_ATTR_FROM_TAZ, .SUMO_ATTR_TO_TAZ,
               .SUMO_ATTR_BUS_STOP, .SUMO_ATTR_TRAIN_STOP],
        ∀ value, DeviceOp.writeAttr key value ∉ ops := by
  refine ⟨_, ?_, rfl, ?_⟩
  · simp [GNEWalk.writeDemandElement, htag, hedges, hjunctions, hadditionals, hfrom, front, back,
      OutputDevice.openTag, OutputDevice.writeAttr, OutputDevice.closeTag, bind, Except.bind,
      pure, Except.pure]
    split <;> simp
  · intro key hkey value
    simp at hkey
    rcases hkey with h | h | h | h | h | h | h | h <;> subst h <;> split <;> simp

/-- The statement of C1 at the walk from edge AB to edge BC on an empty device. -/
theorem C1_walk_edge_witness :
    walkEdge0.tag = .GNE_TAG_WALK_EDGE ∧ walkEdge0.parentEdges = [eAB, eBC] ∧
    walkEdge0.parentJunctions = [] ∧ walkEdge0.parentAdditionals = [] ∧
    walkEdge0.isAttributeEnabled env0 .SUMO_ATTR_FROM = true ∧
    ∃ ops : List DeviceOp,
      walkEdge0.writeDemandElement env0 [] = .ok ([] ++ ops) ∧
      ops = [DeviceOp.openTag .SUMO_TAG_WALK,
             DeviceOp.writeAttr .SUMO_ATTR_FROM (.str eAB.id),
             DeviceOp.writeAttr .SUMO_ATTR_TO (.str eBC.id)]
            ++ (if walkEdge0.myArrivalPosition.isPositive = true
                then [DeviceOp.writeAttr .SUMO_ATTR_ARRIVALPOS (.dbl walkEdge0.myArrivalPosition)]
                else [])
            ++ [DeviceOp.closeTag] ∧
      ∀ key ∈ [SumoXMLAttr.SUMO_ATTR_ROUTE, .SUMO_ATTR_EDGES, .SUMO_ATTR_FROM_JUNCTION,
               .SUMO_ATTR_TO_JUNCTION, .SUMO_ATTR_FROM_TAZ, .SUMO_ATTR_TO_TAZ,
               .SUMO_ATTR_BUS_STOP, .SUMO_ATTR_TRAIN_STOP],
        ∀ value, DeviceOp.writeAttr key value ∉ ops :=
  ⟨rfl, rfl, rfl, rfl, rfl, C1_walk_edge env0 walkEdge0 [] eAB eBC rfl rfl rfl rfl rfl⟩

/-- C2: evaluation at the walk built by the TAZ constructor from `taz0` to `taz1`, with the
`from` attribute enabled: the element carries `toTaz` = ID of the last parent additional and
nothing else; no `fromTaz` attribute is written. -/
theorem C2_taz_walk_omits_fromTaz :
    walkTAZ0.tag = .GNE_TAG_WALK_TAZS ∧
    walkTAZ0.parentAdditionals = [taz0, taz1] ∧
    walkTAZ0.parentEdges = [] ∧ walkTAZ0.parentJunctions = [] ∧
    walkTAZ0.isAttributeEnabled env0 .SUMO_ATTR_FROM = true ∧
    walkTAZ0.writeDemandElement env0 [] =
      .ok [DeviceOp.openTag .SUMO_TAG_WALK,
           DeviceOp.writeAttr .SUMO_ATTR_TO_TAZ (.str "taz_1"),
           DeviceOp.closeTag] :=
  ⟨rfl, rfl, rfl, rfl, rfl, rfl⟩

/-- C3: evaluation at a walk to a bus stop and at a walk to a train stop, both with arrival
position 1.0: the written element carries an `arrivalPos` attribute. -/
theorem C3_stop_walk_writes_arrivalPos :
    walkBusStop0.tag = .GNE_TAG_WALK_BUSSTOP ∧
    walkBusStop0.writeDemandElement env0 [] =
      .ok [DeviceOp.openTag .SUMO_TAG_WALK,
           DeviceOp.writeAttr .SUMO_ATTR_FROM (.str "AB"),
           DeviceOp.writeAttr .SUMO_ATTR_BUS_STOP (.str "bs_0"),
           DeviceOp.writeAttr .SUMO_ATTR_ARRIVALPOS (.dbl one),
           DeviceOp.closeTag] ∧
    walkTrainStop0.tag = .GNE_TAG_WALK_TRAINSTOP ∧
    walkTrainStop0.writeDemandElement env0 [] =
      .ok [DeviceOp.openTag .SUMO_TAG_WALK,
           DeviceOp.writeAttr .SUMO_ATTR_FROM (.str "AB"),
           DeviceOp.writeAttr .SUMO_ATTR_TRAIN_STOP (.str "ts_0"),
           DeviceOp.writeAttr .SUMO_ATTR_ARRIVALPOS (.dbl one),
           DeviceOp.closeTag] :=
  ⟨rfl, rfl, rfl, rfl⟩

/-- C4: for a walk whose tag is neither `GNE_TAG_WALK_ROUTE` nor `GNE_TAG_WALK_EDGES`,
`writeDemandElement` returns, and among the calls it makes the destination attributes are
exactly one, chosen by priority: with a last parent additional, `busStop`, `trainStop` or
`toTaz` (by that additional's tag) with its ID; otherwise with a last parent edge, `to` with
its ID; otherwise with a last parent junction, `toJunction` with its ID. -/
theorem C4_destination (env : Env) (w : GNEWalk) (device : OutputDevice)
    (hroute : w.tag ≠ .GNE_TAG_WALK_ROUTE) (hedges : w.tag ≠ .GNE_TAG_WALK_EDGES) :
    ∃ ops : List DeviceOp,
      w.writeDemandElement env device = .ok (device ++ ops) ∧
      (∀ a, w.parentAdditionals.getLast? = some a →
        ops.filter isDestinationAttr =
          [DeviceOp.writeAttr
            (if a.tag = .SUMO_TAG_BUS_STOP then .SUMO_ATTR_BUS_STOP
             else if a.tag = .SUMO_TAG_TRAIN_STOP then .SUMO_ATTR_TRAIN_STOP
             else .SUMO_ATTR_TO_TAZ) (.str a.id)]) ∧
      (w.parentAdditionals = [] → ∀ e, w.parentEdges.getLast? = some e →
        ops.filter isDestinationAttr = [DeviceOp.writeAttr .SUMO_ATTR_TO (.str e.id)]) ∧
      (w.parentAdditionals = [] → w.parentEdges = [] → ∀ j, w.parentJunctions.getLast? = some j →
        ops.filter isDestinationAttr = [DeviceOp.writeAttr .SUMO_ATTR_TO_JUNCTION (.str j.id)]) := by
  rcases hA : w.parentAdditionals.getLast? with _ | a
  · have hA0 : w.parentAdditionals = [] := by simpa using hA
    rcases hE : w.parentEdges.getLast? with _ | e
    · have hE0 : w.parentEdges = [] := by simpa using hE
      rcases hJ : w.parentJunctions.getLast? with _ | j
      · have hJ0 : w.parentJunctions = [] := by simpa using hJ
        simp [GNEWalk.writeDemandElement, hroute, hedges, hA0, hE0, hJ0,
          OutputDevice.openTag, OutputDevice.writeAttr, OutputDevice.closeTag, bind, Except.bind,
          pure, Except.pure]
        split_ifs <;> exact ⟨_, by rw [List.append_assoc]⟩
      · have hJpos := length_pos_of_getLast? hJ
        obtain ⟨j0, hj0⟩ := front_of_length_pos hJpos
        simp [GNEWalk.writeDemandElement, hroute, hedges, hA0, hE0, hJpos, hj0, back, hJ,
          OutputDevice.openTag, OutputDevice.writeAttr, OutputDevice.closeTag, bind, Except.bind,
          pure, Except.pure]
        split_ifs <;> exact ⟨_, by rw [List.append_assoc], by simp [isDestinationAttr]⟩
    · have hEpos := length_pos_of_getLast? hE
      obtain ⟨e0, he0⟩ := front_of_length_pos hEpos
      simp [GNEWalk.writeDemandElement, hroute, hedges, hA0, hEpos, he0, back, hE,
        OutputDevice.openTag, OutputDevice.writeAttr, OutputDevice.closeTag, bind, Except.bind,
        pure, Except.pure]
      have hE1 : w.parentEdges ≠ [] := by intro h; simp [h] at hE
      split_ifs <;> exact ⟨_, by rw [List.append_assoc], by simp [isDestinationAttr, hE1]⟩
  · have hApos := length_pos_of_getLast? hA
    have hA1 : w.parentAdditionals ≠ [] := by intro h; simp [h] at hA
    simp only [hA, hA1, Option.some.injEq, forall_eq', false_implies, true_and, and_true]
    simp [GNEWalk.writeDemandElement, hroute, hedges, hApos, back, hA,
      OutputDevice.openTag, OutputDevice.writeAttr, OutputDevice.closeTag, bind, Except.bind,
      pure, Except.pure]
    rcases hE : w.parentEdges with _ | ⟨e0, es⟩
    · rcases hJ : w.parentJunctions with _ | ⟨j0, js⟩
      · simp [front]
        split_ifs <;> exact ⟨_, by rw [List.append_assoc], by simp [isDestinationAttr]⟩
      · simp [front]
        split_ifs <;> exact ⟨_, by rw [List.append_assoc], by simp [isDestinationAttr]⟩
    · simp [front]
      split_ifs <;> exact ⟨_, by rw [List.append_assoc], by simp [isDestinationAttr]⟩

/-- The statement of C4 at three walks: to a bus stop (which also has a parent edge), from
edge to edge, and from junction to junction. -/
theorem C4_destination_witness :
    (walkBusStop0.tag ≠ .GNE_TAG_WALK_ROUTE ∧ walkBusStop0.tag ≠ .GNE_TAG_WALK_EDGES ∧
      ∃ ops : List DeviceOp, walkBusStop0.writeDemandElement env0 [] = .ok ([] ++ ops) ∧
        ops.filter isDestinationAttr = [DeviceOp.writeAttr .SUMO_ATTR_BUS_STOP (.str "bs_0")]) ∧
    (walkEdge0.tag ≠ .GNE_TAG_WALK_ROUTE ∧ walkEdge0.tag ≠ .GNE_TAG_WALK_EDGES ∧
      ∃ ops : List DeviceOp, walkEdge0.writeDemandElement env0 [] = .ok ([] ++ ops) ∧
        ops.filter isDestinationAttr = [DeviceOp.writeAttr .SUMO_ATTR_TO (.str "BC")]) ∧
    (walkJunctions0.tag ≠ .GNE_TAG_WALK_ROUTE ∧ walkJunctions0.tag ≠ .GNE_TAG_WALK_EDGES ∧
      ∃ ops : List DeviceOp, walkJunctions0.writeDemandElement env0 [] = .ok ([] ++ ops) ∧
        ops.filter isDestinationAttr = [DeviceOp.writeAttr .SUMO_ATTR_TO_JUNCTION (.str "C")]) :=
  ⟨⟨by decide, by decide,
      (C4_destination env0 walkBusStop0 [] (by decide) (by decide)).imp
        fun _ h => ⟨h.1, h.2.1 busStop0 rfl⟩⟩,
    ⟨by decide, by decide,
      (C4_destination env0 walkEdge0 [] (by decide) (by decide)).imp
        fun _ h => ⟨h.1, h.2.2.1 rfl eBC rfl⟩⟩,
    ⟨by decide, by decide,
      (C4_destination env0 walkJunctions0 [] (by decide) (by decide)).imp
        fun _ h => ⟨h.1, h.2.2.2 rfl rfl jC rfl⟩⟩⟩

/-! ## Path computation -/

/-- C5, as amended: for a walk of `person` with a last parent junction `last`,
`computePathElement` returns having issued exactly one `calculatePathJunctions` request
followed by `updateGeometry`, and no other request, in each of these cases.  The junction
list is the walk's own parent junctions when the person has no previous plan; `[first, last]`
when the previous plan has parent junctions, `first` being its first one; and, when the
previous plan has no parent junctions and its `getLastPathLane()` returns a lane,
`[to-junction of the parent edge of that lane, last]`. -/
theorem C5_junction_path (env : Env) (w : GNEWalk) (log : List PathEffect)
    (person : GNEDemandElement) (last : GNEJunction)
    (hperson : w.parentDemandElements.head? = some person)
    (hlast : w.parentJunctions.getLast? = some last) :
    (env.getPreviousChildDemandElement person w = none →
      w.computePathElement env log =
        .ok (log ++ [PathEffect.calculatePathJunctions person.vClass w.parentJunctions,
                     PathEffect.updateGeometry])) ∧
    (∀ previous first, env.getPreviousChildDemandElement person w = some previous →
      previous.parentJunctions.head? = some first →
      w.computePathElement env log =
        .ok (log ++ [PathEffect.calculatePathJunctions person.vClass [first, last],
                     PathEffect.updateGeometry])) ∧
    (∀ previous lane, env.getPreviousChildDemandElement person w = some previous →
      previous.parentJunctions = [] → previous.lastPathLane = .ok lane →
      w.computePathElement env log =
        .ok (log ++ [PathEffect.calculatePathJunctions person.vClass
                       [lane.parentEdge.toJunction, last],
                     PathEffect.updateGeometry])) := by
  have hpos := length_pos_of_getLast? hlast
  have hat : vectorAt w.parentDemandElements 0 = .ok person := by
    cases h : w.parentDemandElements with
    | nil => simp [h] at hperson
    | cons p ps =>
      simp [h] at hperson
      simp [vectorAt, hperson]
  have hvc : w.getVClass = .ok person.vClass := by
    simp [GNEWalk.getVClass, front, hperson, bind, Except.bind, pure, Except.pure]
  refine ⟨?_, ?_, ?_⟩
  · intro hprev
    simp [GNEWalk.computePathElement, hpos, hat, hprev, hvc, bind, Except.bind, pure, Except.pure]
  · intro previous first hprev hfirst
    have hppos : 0 < previous.parentJunctions.length := by
      cases h : previous.parentJunctions with
      | nil => simp [h] at hfirst
      | cons a as => simp
    simp [GNEWalk.computePathElement, hpos, hat, hprev, hvc, hppos, front, back, hfirst, hlast,
      bind, Except.bind, pure, Except.pure]
  · intro previous lane hprev hnone hlane
    simp [GNEWalk.computePathElement, hpos, hat, hprev, hvc, hnone, hlane, back, hlast,
      bind, Except.bind, pure, Except.pure]

/-- The amended C5 at the walk from junction A to junction C: as first plan of its person
(request for `[A, C]`), after the walk from junction B to junction A (request for `[B, C]`),
and after the walk from edge AB to edge AD, whose last path lane lies on the edge into
junction D (request for `[D, C]`). -/
theorem C5_junction_path_witness :
    walkJunctions0.parentDemandElements.head? = some person0 ∧
    walkJunctions0.parentJunctions.getLast? = some jC ∧
    (env0.getPreviousChildDemandElement person0 walkJunctions0 = none ∧
      walkJunctions0.computePathElement env0 [] =
        .ok [PathEffect.calculatePathJunctions .SVC_PEDESTRIAN [jA, jC],
             PathEffect.updateGeometry]) ∧
    (env1.getPreviousChildDemandElement person0 walkJunctions0 = some previousJunctionPlan ∧
      previousJunctionPlan.parentJunctions.head? = some jB ∧
      walkJunctions0.computePathElement env1 [] =
        .ok [PathEffect.calculatePathJunctions .SVC_PEDESTRIAN [jB, jC],
             PathEffect.updateGeometry]) ∧
    (env2.getPreviousChildDemandElement person0 walkJunctions0 = some previousEdgePlan ∧
      previousEdgePlan.parentJunctions = [] ∧
      previousEdgePlan.lastPathLane = .ok ⟨"AD_1", eAD⟩ ∧
      walkJunctions0.computePathElement env2 [] =
        .ok [PathEffect.calculatePathJunctions .SVC_PEDESTRIAN [jD, jC],
             PathEffect.updateGeometry]) :=
  ⟨rfl, rfl,
    ⟨rfl, (C5_junction_path env0 walkJunctions0 [] person0 jC rfl rfl).1 rfl⟩,
    ⟨rfl, rfl,
      (C5_junction_path env1 walkJunctions0 [] person0 jC rfl rfl).2.1 previousJunctionPlan jB
        rfl rfl⟩,
    ⟨rfl, rfl, rfl,
      (C5_junction_path env2 walkJunctions0 [] person0 jC rfl rfl).2.2 previousEdgePlan
        ⟨"AD_1", eAD⟩ rfl rfl rfl⟩⟩

/-- C5 as stated fails at the walk from junction A to junction C that follows the walk from
`taz0` to `taz1`: the walk has parent junctions and a person parent, its previous plan has no
parent junctions, and the previous plan's `getLastPathLane()` reads the front of the empty
lane vector of `taz0`; `computePathElement` does not return, so it issues no request and
never reaches `updateGeometry`. -/
theorem C5_after_taz_walk_no_request :
    0 < walkJunctions0.parentJunctions.length ∧
    walkJunctions0.parentDemandElements.head? = some person0 ∧
    env3.getPreviousChildDemandElement person0 walkJunctions0 = some previousTAZPlan ∧
    previousTAZPlan.parentJunctions = [] ∧
    walkTAZ0.getLastPathLane env0 = .error .undefinedBehaviour ∧
    walkJunctions0.computePathElement env3 [] = .error .undefinedBehaviour ∧
    ¬ ∃ vClass junctions,
      walkJunctions0.computePathElement env3 [] =
        .ok [PathEffect.calculatePathJunctions vClass junctions, PathEffect.updateGeometry] := by
  refine ⟨by decide, rfl, rfl, rfl, rfl, rfl, ?_⟩
  rintro ⟨vClass, junctions, h⟩
  have h0 : walkJunctions0.computePathElement env3 [] = .error .undefinedBehaviour := rfl
  rw [h0] at h
  cases h

end Sumo
